import Mathlib

/-!
# Verification of the baseball-biomechanics dashboard data pipeline

A shallow embedding of the join-and-filter data pipeline that is repeated,
with variations, across the dashboard scripts (`stream_data_app*.py`,
`app.py`).  Tables are modelled as an ordered list of column names plus an
ordered list of rows; a row is an association list from column name to cell
value, where the value `Value.missing` models pandas' `NaN` and a name
absent from a row also reads as missing (pandas would materialise the
column with `NaN` there).

The pandas operations used by the scripts are embedded as executable Lean
functions, translated from the source:
* `pd.json_normalize(data, sep=...)`  → `json_normalize`
* `df[df[c].between(lo, hi)]`         → `numericFilter` / `dateFilter`
* `df[df[c].isin(opts)] if opts else df` → `discreteFilter`
* `df[df[c].str.contains(pat, case=False, na=False)]` → `nameFilter`
* `pd.merge(...)` (inner / how="left", left_on/right_on, suffixes)
                                      → `merge` / `mergeChecked`
* `df.dropna(subset=[c])`             → `dropna`
-/

/-- A table cell.  `missing` models pandas `NaN` (produced for JSON `null`,
for columns absent from a heterogeneous record, and for the right side of an
unmatched left-join row).  `dt` is a parsed timestamp (datetime64 cell). -/
inductive Value where
  | str (s : String)
  | num (n : Int)
  | dt (t : Int)
  | bool (b : Bool)
  | missing
deriving DecidableEq, Repr

/-- A row: an association list from column name to cell value. -/
abbrev Row := List (String × Value)

/-- Reading a cell: the first field with the given name, `missing` when the
name is absent (pandas shows `NaN` for a column a record does not have). -/
def lookupVal (c : String) (r : Row) : Value :=
  match r.find? (fun p => p.1 == c) with
  | some p => p.2
  | none => Value.missing

/-- Whether a row carries a field with the given name. -/
def hasField (c : String) (r : Row) : Bool :=
  r.any (fun p => p.1 == c)

/-- A table: ordered column names and ordered rows (a pandas DataFrame). -/
structure Table where
  cols : List String
  rows : List Row
deriving DecidableEq, Repr

/-- The empty DataFrame `pd.DataFrame()`. -/
def Table.empty : Table := { cols := [], rows := [] }

/-! ## JSON and `pd.json_normalize` -/

/-- Decoded JSON (`response.json()`). -/
inductive Json where
  | null
  | bool (b : Bool)
  | num (n : Int)
  | str (s : String)
  | arr (elems : List Json)
  | obj (fields : List (String × Json))

mutual

/-- Canonical rendering of a JSON value, used for the opaque cell that
`pd.json_normalize` stores when a field holds an array (arrays are kept
as-is, not expanded into columns). -/
def renderJson : Json → String
  | Json.null => "null"
  | Json.bool b => toString b
  | Json.num n => toString n
  | Json.str s => s
  | Json.arr es => "arr(" ++ renderJsonList es ++ ")"
  | Json.obj fs => "obj(" ++ renderJsonFields fs ++ ")"

/-- Render a list of JSON values, comma separated. -/
def renderJsonList : List Json → String
  | [] => ""
  | [j] => renderJson j
  | j :: rest => renderJson j ++ "," ++ renderJsonList rest

/-- Render JSON object fields, comma separated. -/
def renderJsonFields : List (String × Json) → String
  | [] => ""
  | [(k, j)] => k ++ ":" ++ renderJson j
  | (k, j) :: rest => k ++ ":" ++ renderJson j ++ "," ++ renderJsonFields rest

end

/-- The cell stored for a non-object JSON leaf.  `null` becomes `NaN`
(missing); arrays are kept as one opaque cell.  (`obj` never reaches this
function from `flattenFields`, which recurses into objects; it is rendered
opaquely for totality.) -/
def scalarValue : Json → Value
  | Json.null => Value.missing
  | Json.bool b => Value.bool b
  | Json.num n => Value.num n
  | Json.str s => Value.str s
  | Json.arr es => Value.str ("arr(" ++ renderJsonList es ++ ")")
  | Json.obj fs => Value.str ("obj(" ++ renderJsonFields fs ++ ")")

/-- Compose a nested column name from the path so far and a key, joined by
the separator (`sep="."` by default in pandas, `sep="_"` in v8/v9). -/
def joinPath (sep path k : String) : String :=
  if path.isEmpty then k else path ++ sep ++ k

/-- Flatten the fields of one (possibly nested) JSON object into row cells:
nested object fields become `parent<sep>child` columns, in field order;
leaves become cells via `scalarValue`. -/
def flattenFields (sep : String) : String → List (String × Json) → Row
  | _, [] => []
  | path, (k, Json.obj fs) :: rest =>
      flattenFields sep (joinPath sep path k) fs ++ flattenFields sep path rest
  | path, (k, v) :: rest =>
      (joinPath sep path k, scalarValue v) :: flattenFields sep path rest

/-- The flat row of one JSON record (`pd.json_normalize` flattens dict
records; a non-dict record contributes no named cells). -/
def recordRow (sep : String) : Json → Row
  | Json.obj fs => flattenFields sep "" fs
  | _ => []

/-- Accumulate column names in first-seen order without duplicates. -/
def dedupAppend (acc : List String) (cs : List String) : List String :=
  cs.foldl (fun a c => if a.contains c then a else a ++ [c]) acc

/-- The column layout of a list of rows: every field name, in first-seen
order across the rows. -/
def tableCols (rows : List Row) : List String :=
  rows.foldl (fun a r => dedupAppend a (r.map Prod.fst)) []

/-- `pd.json_normalize(records, sep=sep)` on a list of records. -/
def flattenRecords (records : List Json) (sep : String) : Table :=
  let rows := records.map (recordRow sep)
  { cols := tableCols rows, rows := rows }

/-- `pd.json_normalize(data, sep=sep)`: a JSON array is a list of records;
a lone object is a single record.  (pandas rejects scalar input; that case
is outside the domain exercised by the scripts and yields the empty
table here.) -/
def json_normalize (data : Json) (sep : String) : Table :=
  match data with
  | Json.arr records => flattenRecords records sep
  | Json.obj fs => flattenRecords [Json.obj fs] sep
  | _ => Table.empty

/-! ## Filter branches

Each dashboard offers one filter per interaction; the branch taken depends
on the inferred dtype of the chosen column.  Each branch is a boolean-mask
row selection `df[mask]`, embedded as `List.filter` on the rows.
-/

/-- Numeric branch: `df[df[c].between(lo, hi)]` (pandas `between` is
inclusive on both ends; `NaN` and non-numeric cells compare false). -/
def numericFilter (t : Table) (c : String) (lo hi : Int) : Table :=
  { t with rows := t.rows.filter (fun r =>
      match lookupVal c r with
      | Value.num v => decide (lo ≤ v) && decide (v ≤ hi)
      | _ => false) }

/-- Datetime branch: `df[df[c].between(dateFrom, dateTo)]` on a
datetime64 column; cells that are not parsed timestamps compare false. -/
def dateFilter (t : Table) (c : String) (dateFrom dateTo : Int) : Table :=
  { t with rows := t.rows.filter (fun r =>
      match lookupVal c r with
      | Value.dt v => decide (dateFrom ≤ v) && decide (v ≤ dateTo)
      | _ => false) }

/-- Discrete branch: `df[df[c].isin(options)] if options else df` — an
empty multiselect leaves the table unfiltered. -/
def discreteFilter (t : Table) (c : String) (options : List Value) : Table :=
  if options.isEmpty then t
  else { t with rows := t.rows.filter (fun r => options.contains (lookupVal c r)) }

/-- Substring test used by `str.contains`: is `pat` a contiguous substring
of `hay` (as character lists)? -/
def containsSub (hay pat : List Char) : Bool :=
  match hay with
  | [] => pat.isEmpty
  | _ :: t => pat.isPrefixOf hay || containsSub t pat

/-- Lower-case a string character by character (`case=False`). -/
def lowerStr (s : String) : String :=
  ⟨s.data.map Char.toLower⟩

/-- Name branch (`app.py`):
`filtered[filtered[c].str.contains(pat, case=False, na=False)]` guarded by
`if name_filter:` — the empty pattern (falsy) leaves the table unfiltered;
`na=False` drops rows whose cell is not a string. -/
def nameFilter (t : Table) (c : String) (pat : String) : Table :=
  if pat.isEmpty then t
  else { t with rows := t.rows.filter (fun r =>
      match lookupVal c r with
      | Value.str s => containsSub (lowerStr s).data (lowerStr pat).data
      | _ => false) }

/-! ## `pd.merge` -/

/-- Join mode: the scripts use the default (inner) and `how="left"`. -/
inductive MergeHow where
  | inner
  | left
deriving DecidableEq, Repr

/-- The colliding column names that pandas disambiguates with suffixes:
names present in both inputs, except the shared key when merging `on=` one
key name (that column appears once, unsuffixed). -/
def collideCols (left right : Table) (lk rk : String) : List String :=
  (left.cols.filter (fun c => right.cols.contains c)).filter
    (fun c => !(lk == rk && c == lk))

/-- Rename the colliding fields of one side's row by appending its suffix. -/
def applySuffix (collide : List String) (suf : String) (r : Row) : Row :=
  r.map (fun p => if collide.contains p.1 then (p.1 ++ suf, p.2) else p)

/-- Rename colliding names in a column list by appending the suffix. -/
def suffixCols (collide : List String) (suf : String) (cs : List String) : List String :=
  cs.map (fun c => if collide.contains c then c ++ suf else c)

/-- The all-`NaN` right side pandas pads an unmatched row with in a left
join. -/
def missingPad (cols : List String) : Row :=
  cols.map (fun c => (c, Value.missing))

/-- Output column layout: suffixed left columns then suffixed right
columns; with `on=` one shared key name the key appears only once. -/
def mergeOutCols (left right : Table) (lk rk : String) (sl sr : String) : List String :=
  let collide := collideCols left right lk rk
  suffixCols collide sl left.cols ++
    (if lk == rk then (suffixCols collide sr right.cols).filter (fun c => c != rk)
     else suffixCols collide sr right.cols)

/-- `pd.merge(left, right, left_on=lk, right_on=rk, how=how,
suffixes=(sl, sr))`: one output row per (left row, right row) pair with
equal key values; in left mode an unmatched left row is padded with `NaN`
on the right.  Row order follows the left table, then the right table
within one left row, as pandas produces for these modes. -/
def merge (left right : Table) (lk rk : String) (how : MergeHow) (sl sr : String) : Table :=
  let collide := collideCols left right lk rk
  let rows := left.rows.flatMap (fun l =>
    let ms := right.rows.filter (fun r => lookupVal rk r == lookupVal lk l)
    if how == MergeHow.left && ms.isEmpty then
      [applySuffix collide sl l ++ missingPad (suffixCols collide sr right.cols)]
    else ms.map (fun r => applySuffix collide sl l ++ applySuffix collide sr r))
  { cols := mergeOutCols left right lk rk sl sr, rows := rows }

/-- The error pandas raises when a merge names a key column absent from
its table (`KeyError`, the spec's `SchemaError`). -/
inductive MergeErr where
  | schemaErr (col : String)
deriving DecidableEq, Repr

/-- `pd.merge` validates both key columns during setup, before any row
comparison; a missing key surfaces as a `KeyError`.  Modelled as an
`Except`: an `error` left unhandled by a script is an unhandled fault. -/
def mergeChecked (left right : Table) (lk rk : String) (how : MergeHow) (sl sr : String) :
    Except MergeErr Table :=
  if !left.cols.contains lk then Except.error (MergeErr.schemaErr lk)
  else if !right.cols.contains rk then Except.error (MergeErr.schemaErr rk)
  else Except.ok (merge left right lk rk how sl sr)

/-- `df.dropna(subset=[c])`: keep rows whose cell at `c` is not `NaN`.
pandas raises a `KeyError` when `c` is not a column of the frame, so the
result is an `Except`: an `error` left unhandled by a script is an
unhandled fault. -/
def dropna (t : Table) (c : String) : Except MergeErr Table :=
  if t.cols.contains c then
    Except.ok { t with rows := t.rows.filter (fun r => lookupVal c r != Value.missing) }
  else Except.error (MergeErr.schemaErr c)

/-- `ball_df[ball_df['kind'] == 'Pitch']` (v7/v8/v9). -/
def kindPitchFilter (t : Table) : Table :=
  { t with rows := t.rows.filter (fun r => lookupVal "kind" r == Value.str "Pitch") }

/-! ## Resource fetching (`requests.get` + status check) -/

/-- One HTTP response: status code, decoded JSON body (`response.json()`),
and raw text (`response.text`, used in error messages). -/
structure HttpResponse where
  status : Nat
  body : Json
  text : String

/-- What one fetch function does: the requests it issues (in order), the
`st.error`/`st.warning` messages it emits, and the table it returns. -/
structure FetchResult where
  requests : List String
  messages : List String
  table : Table

namespace V9

/-- The `st.error` message of `fetch_play_data` (v9). -/
def playErrMsg (resp : HttpResponse) : String :=
  "Play data fetch error: " ++ toString resp.status ++ " - " ++ resp.text

/-- The `st.error` message of `fetch_ball_data` (v9). -/
def ballErrMsg (resp : HttpResponse) : String :=
  "Ball data fetch error: " ++ toString resp.status ++ " - " ++ resp.text

/-- `fetch_play_data` (v9, lines 52-65): one GET; on 200 normalize the body
with `sep="_"`; otherwise `st.error(...)` and return `pd.DataFrame()`. -/
def fetch_play_data (base_url session_id : String) (resp : HttpResponse) : FetchResult :=
  let url := base_url ++ "/" ++ session_id
  if resp.status == 200 then
    { requests := [url], messages := [], table := json_normalize resp.body "_" }
  else
    { requests := [url], messages := [playErrMsg resp], table := Table.empty }

/-- `fetch_ball_data` (v9, lines 68-81): one GET against the balls
endpoint; on 200 normalize with `sep="_"`; otherwise `st.error(...)` and
return `pd.DataFrame()`. -/
def fetch_ball_data (session_id : String) (resp : HttpResponse) : FetchResult :=
  let url := "https://dataapi.trackmanbaseball.com/api/v1/data/game/balls/" ++ session_id
  if resp.status == 200 then
    { requests := [url], messages := [], table := json_normalize resp.body "_" }
  else
    { requests := [url], messages := [ballErrMsg resp], table := Table.empty }

/-- The two per-session fetches of the v9 loop body (lines 115-116): plays
and balls are fetched independently, each from its own response. -/
def fetchSessionTables (base_url session_id : String) (playResp ballResp : HttpResponse) :
    FetchResult × FetchResult :=
  (fetch_play_data base_url session_id playResp, fetch_ball_data session_id ballResp)

/-- v9 lines 119-120: filter balls to `kind == 'Pitch'`, then
`pd.merge(ball_df, play_df, how="left", left_on="playId",
right_on="playID")` (pandas default suffixes).  The script wraps it in no
try/except, so a merge error is an unhandled fault. -/
def mergedBallsPlays (ball_df play_df : Table) : Except MergeErr Table :=
  mergeChecked (kindPitchFilter ball_df) play_df "playId" "playID" MergeHow.left "_x" "_y"

/-- v9 lines 119-121: the merge followed by
`dropna(subset=["pitcher_id"])`. -/
def mergedDropna (ball_df play_df : Table) : Except MergeErr Table :=
  match mergedBallsPlays ball_df play_df with
  | Except.error e => Except.error e
  | Except.ok m => dropna m "pitcher_id"

/-- The inner-mode counterpart of the v9 merge (same tables and keys,
`how` inner instead of left), used to compare the composite against a
plain inner join. -/
def innerBallsPlays (ball_df play_df : Table) : Except MergeErr Table :=
  mergeChecked (kindPitchFilter ball_df) play_df "playId" "playID" MergeHow.inner "_x" "_y"

end V9

namespace V3

/-- `fetch_play_data` (v3, lines 49-62): one GET; on 200 normalize only a
list body (`isinstance(data, list)`), else an empty table; on failure
`st.error(...)` and an empty table. -/
def fetch_play_data (base_url session_id : String) (resp : HttpResponse) : FetchResult :=
  let url := base_url ++ "/" ++ session_id
  if resp.status == 200 then
    { requests := [url], messages := [],
      table := match resp.body with
        | Json.arr rs => flattenRecords rs "."
        | _ => Table.empty }
  else
    { requests := [url],
      messages := ["Play data fetch error: " ++ toString resp.status ++ " - " ++ resp.text],
      table := Table.empty }

end V3

namespace V4

/-- `fetch_plays` (v4, lines 43-47): one GET; on a non-200 status it
returns `pd.DataFrame()` with NO message (no `st.error` call in this
version). -/
def fetch_plays (plays_url session_id : String) (resp : HttpResponse) : FetchResult :=
  let url := plays_url ++ "/" ++ session_id
  if resp.status == 200 then
    { requests := [url], messages := [], table := json_normalize resp.body "." }
  else
    { requests := [url], messages := [], table := Table.empty }

end V4

/-- The three outcomes of the v5 merge block (lines 217-236): the guarded
merge, the `st.warning` branch, or an unhandled fault from the merge
itself. -/
inductive V5Outcome where
  | merged (t : Table)
  | warning (msg : String)
  | fault (e : MergeErr)
deriving Repr

namespace V5

/-- v5 lines 217-218: merge only `if not play_df.empty and not
ball_df.empty and "playId" in ball_df.columns`, else warn.  The guard
checks the balls side only; a key missing from the plays side would still
reach the merge. -/
def mergeStep (play_df ball_df : Table) : V5Outcome :=
  if !play_df.rows.isEmpty && !ball_df.rows.isEmpty && ball_df.cols.contains "playId" then
    match mergeChecked play_df ball_df "playId" "playId" MergeHow.left "_x" "_y" with
    | Except.ok m => V5Outcome.merged m
    | Except.error e => V5Outcome.fault e
  else V5Outcome.warning "Play or Ball data is empty or not mergeable."

end V5

namespace V6

/-- v6 line 127: `plays_df[plays_df["pitcher.id"].isin(selected_pitcher_ids)]`. -/
def filtered_plays (plays : Table) (pitcherIds : List Value) : Table :=
  { plays with rows := plays.rows.filter (fun p => pitcherIds.contains (lookupVal "pitcher.id" p)) }

/-- v6 lines 130-132: `balls_df[(balls_df["kind"] == "Pitch") &
(balls_df["playId"].isin(filtered_plays["playID"]))]`. -/
def filtered_balls (balls fp : Table) : Table :=
  { balls with rows := balls.rows.filter (fun b =>
      lookupVal "kind" b == Value.str "Pitch" &&
      (fp.rows.map (lookupVal "playID")).contains (lookupVal "playId" b)) }

/-- v6 lines 138-144: `pd.merge(filtered_plays, filtered_balls,
left_on="playID", right_on="playId", suffixes=("_play", "_ball"))`
(default inner mode). -/
def combined_df (plays balls : Table) (pitcherIds : List Value) : Table :=
  let fp := filtered_plays plays pitcherIds
  merge fp (filtered_balls balls fp) "playID" "playId" MergeHow.inner "_play" "_ball"

end V6

/-! ## Heap model for in-place mutation

Python dataframes are heap objects.  `filtered = df[mask]` and
`pd.merge(...)` build a NEW object; `df[col] = ...` writes a column into
the EXISTING object.  A heap is a list of tables addressed by index.
-/

abbrev Heap := List Table

/-- Dereference (out-of-range reads the empty table). -/
def Heap.read (h : Heap) (r : Nat) : Table :=
  h.getD r Table.empty

/-- Overwrite the object at an existing reference. -/
def Heap.write (h : Heap) (r : Nat) (t : Table) : Heap :=
  h.set r t

/-- Allocate a fresh object; returns the new heap and the new reference. -/
def Heap.alloc (h : Heap) (t : Table) : Heap × Nat :=
  (h ++ [t], h.length)

/-- Overwrite a field of a row, or append it when absent. -/
def setField (r : Row) (c : String) (v : Value) : Row :=
  if hasField c r then r.map (fun p => if p.1 == c then (p.1, v) else p)
  else r ++ [(c, v)]

/-- `df[c] = df.apply(f, axis=1)`: compute a cell per row and store it
under column `c` of the same table. -/
def addColumn (t : Table) (c : String) (f : Row → Value) : Table :=
  { cols := if t.cols.contains c then t.cols else t.cols ++ [c],
    rows := t.rows.map (fun r => setField r c (f r)) }

/-- Render a cell the way an f-string would. -/
def renderValue : Value → String
  | Value.str s => s
  | Value.num n => toString n
  | Value.dt t => toString t
  | Value.bool b => toString b
  | Value.missing => "nan"

/-- v6 lines 116-118: the cell
`f'{r.get("pitcher.name", "Unknown")} ({r.get("pitcher.id", ""))})'`
computed per play row (`Series.get` falls back to the default only when
the label is absent). -/
def pitcherDisplayVal (r : Row) : Value :=
  Value.str
    ((if hasField "pitcher.name" r then renderValue (lookupVal "pitcher.name" r) else "Unknown")
      ++ " ("
      ++ (if hasField "pitcher.id" r then renderValue (lookupVal "pitcher.id" r) else "")
      ++ ")")

/-- A filter step `filtered = df[mask]`: reads the source object and
allocates a new object for the result. -/
def runFilterStep (h : Heap) (src : Nat) (c : String) (lo hi : Int) : Heap × Nat :=
  Heap.alloc h (numericFilter (Heap.read h src) c lo hi)

/-- A join step `merged = pd.merge(l, r, ...)`: reads both source objects
and allocates a new object for the result. -/
def runJoinStep (h : Heap) (lref rref : Nat) (lk rk : String) (how : MergeHow) (sl sr : String) :
    Heap × Nat :=
  Heap.alloc h (merge (Heap.read h lref) (Heap.read h rref) lk rk how sl sr)

/-- A column assignment `df[c] = ...`: writes back into the SAME object. -/
def runColAssignStep (h : Heap) (ref : Nat) (c : String) (f : Row → Value) : Heap :=
  Heap.write h ref (addColumn (Heap.read h ref) c f)

/-- v6 lines 116-118 as a heap step: `plays_df["pitcher_display"] = ...`
mutates the fetched plays table in place. -/
def v6PitcherDisplayStep (h : Heap) (playsRef : Nat) : Heap :=
  runColAssignStep h playsRef "pitcher_display" pitcherDisplayVal

/-! ## Counting helpers for the inner-join cardinality property -/

/-- How many rows of `rows` carry key value `v` in column `k`. -/
def countKey (rows : List Row) (k : String) (v : Value) : Nat :=
  (rows.filter (fun r => lookupVal k r == v)).length

/-- The distinct key values of the left table (the key groups). -/
def groupKeys (t : Table) (k : String) : List Value :=
  (t.rows.map (lookupVal k)).dedup

/-- `sum over matching key groups of |left group| * |right group|` (groups
with no right match contribute 0). -/
def innerGroupSum (left right : Table) (lk rk : String) : Nat :=
  ((groupKeys left lk).map
    (fun v => countKey left.rows lk v * countKey right.rows rk v)).sum

/-- Total projection of a merge outcome to its rows (the error case has no
rows). -/
def exceptRows : Except MergeErr Table → List Row
  | Except.ok t => t.rows
  | Except.error _ => []

/-- Whether a merge outcome is a success. -/
def exceptOk : Except MergeErr Table → Bool
  | Except.ok _ => true
  | Except.error _ => false

/-- A one-row plays table as fetched (concrete test fixture). -/
def playsFixture : Table :=
  { cols := ["pitcher.name", "pitcher.id"],
    rows := [[("pitcher.name", Value.str "Alice"), ("pitcher.id", Value.str "1")]] }

/-- A balls table with no `playId` column (concrete test fixture). -/
def ballsNoPlayId : Table :=
  { cols := ["kind"], rows := [[("kind", Value.str "Pitch")]] }

/-- A plays table carrying `playID` (concrete test fixture). -/
def playsWithPlayID : Table :=
  { cols := ["playID"], rows := [[("playID", Value.str "p1")]] }

/-- A non-empty plays table with no `playId` column (concrete test
fixture for the v5 guard gap). -/
def playsNoPlayId : Table :=
  { cols := ["inning"], rows := [[("inning", Value.num 1)]] }

/-- A balls table carrying `playId` (concrete test fixture). -/
def ballsWithPlayId : Table :=
  { cols := ["playId", "kind"],
    rows := [[("playId", Value.str "p1"), ("kind", Value.str "Pitch")]] }

/-- A plays table whose single row matches `p1` and whose `pitcher_id`
column is present but holds `NaN` — the flattening of
`[{"playID":"p1","pitcher":{"id":null}}]` with `sep="_"` (concrete test
fixture for the dropna/inner-join comparison). -/
def playsNullPitcherId : Table :=
  { cols := ["playID", "pitcher_id"],
    rows := [[("playID", Value.str "p1"), ("pitcher_id", Value.missing)]] }

/-- A plays table carrying `playID` and a non-missing `pitcher_id`
(concrete test fixture). -/
def playsWithPitcherId : Table :=
  { cols := ["playID", "pitcher_id"],
    rows := [[("playID", Value.str "p1"), ("pitcher_id", Value.str "7")]] }

/-! # Shared lemmas -/

theorem lookupVal_nil (c : String) : lookupVal c [] = Value.missing := rfl

theorem lookupVal_cons (c : String) (p : String × Value) (r : Row) :
    lookupVal c (p :: r) = if p.1 == c then p.2 else lookupVal c r := by
  by_cases h : p.1 = c
  · simp [lookupVal, List.find?_cons_of_pos, h]
  · simp [lookupVal, List.find?_cons_of_neg, h]

theorem hasField_cons (c : String) (p : String × Value) (r : Row) :
    hasField c (p :: r) = (p.1 == c || hasField c r) := by
  simp [hasField]

theorem lookupVal_append (c : String) (r1 r2 : Row) :
    lookupVal c (r1 ++ r2) =
      if hasField c r1 then lookupVal c r1 else lookupVal c r2 := by
  induction r1 with
  | nil => simp [hasField, lookupVal_nil]
  | cons p r1 ih =>
      by_cases h : p.1 = c
      · simp [lookupVal_cons, hasField_cons, h]
      · simp [lookupVal_cons, hasField_cons, h, ih]

theorem hasField_false_of_lookupVal_missing (c : String) (r : Row)
    (h : hasField c r = false) : lookupVal c r = Value.missing := by
  induction r with
  | nil => rfl
  | cons p r ih =>
      rw [hasField_cons] at h
      rcases Bool.or_eq_false_iff.mp h with ⟨h1, h2⟩
      rw [lookupVal_cons, h1]
      · exact ih h2

theorem lookupVal_missingPad (c : String) (cols : List String) :
    lookupVal c (missingPad cols) = Value.missing := by
  induction cols with
  | nil => rfl
  | cons d cols ih =>
      by_cases h : d = c
      · simp [missingPad, lookupVal_cons, h]
      · simp only [missingPad, List.map_cons, lookupVal_cons]
        simp only [missingPad] at ih
        simp [h, ih]

theorem strAppend_ne_of_getLast (a suf c : String) (x y : Char)
    (hs : suf.data.getLast? = some x) (hc : c.data.getLast? = some y)
    (hxy : x ≠ y) : a ++ suf ≠ c := by
  intro h
  have hd : a.data ++ suf.data = c.data := by
    simpa [String.data_append] using congrArg String.data h
  have hne : suf.data ≠ [] := by
    intro hnil; rw [hnil] at hs; simp at hs
  have : (a.data ++ suf.data).getLast? = some x := by
    rw [List.getLast?_append_of_ne_nil _ hne]; exact hs
  rw [hd, hc] at this
  exact hxy (Option.some.inj this).symm

theorem applySuffix_preserves (collide : List String) (suf c : String) (r : Row)
    (h1 : c ∉ collide) (h2 : ∀ a : String, a ++ suf ≠ c) :
    hasField c (applySuffix collide suf r) = hasField c r ∧
      lookupVal c (applySuffix collide suf r) = lookupVal c r := by
  induction r with
  | nil => exact ⟨rfl, rfl⟩
  | cons p r ih =>
      obtain ⟨ih1, ih2⟩ := ih
      by_cases hcol : p.1 ∈ collide
      · have hmap : applySuffix collide suf (p :: r) =
            (p.1 ++ suf, p.2) :: applySuffix collide suf r := by
          simp [applySuffix, hcol]
        have hne : (p.1 ++ suf) ≠ c := h2 p.1
        have hpc : p.1 ≠ c := fun hpc => h1 (hpc ▸ hcol)
        have hb1 : (p.1 ++ suf == c) = false := by simp [hne]
        have hb2 : (p.1 == c) = false := by simp [hpc]
        rw [hmap]
        constructor
        · rw [hasField_cons, hasField_cons, ih1, hb1, hb2]
        · rw [lookupVal_cons, lookupVal_cons, ih2, hb1, hb2]
      · have hmap : applySuffix collide suf (p :: r) =
            p :: applySuffix collide suf r := by
          simp [applySuffix, hcol]
        rw [hmap]
        constructor
        · rw [hasField_cons, hasField_cons, ih1]
        · rw [lookupVal_cons, lookupVal_cons, ih2]

theorem sum_map_add_distrib {β : Type} (l : List β) (f g : β → Nat) :
    (l.map (fun v => f v + g v)).sum = (l.map f).sum + (l.map g).sum := by
  induction l with
  | nil => rfl
  | cons b l ih =>
      simp only [List.map_cons, List.sum_cons, ih]
      omega

theorem sum_map_ite_eq {β : Type} [DecidableEq β] (l : List β) (a : β) (f : β → Nat)
    (hnd : l.Nodup) (ha : a ∈ l) :
    (l.map (fun v => if v = a then f v else 0)).sum = f a := by
  induction l with
  | nil => cases ha
  | cons b l ih =>
      rcases List.mem_cons.mp ha with h | h
      · have hb : a ∉ l := by rw [h]; exact (List.nodup_cons.mp hnd).1
        have hz : (l.map (fun v => if v = a then f v else 0)).sum = 0 := by
          apply List.sum_eq_zero
          intro x hx
          obtain ⟨v, hv, hvx⟩ := List.mem_map.mp hx
          have hva : v ≠ a := fun he => hb (he ▸ hv)
          rw [← hvx, if_neg hva]
        rw [List.map_cons, List.sum_cons, ← h, if_pos rfl, hz]
        omega
      · have hb : b ≠ a := fun he => (List.nodup_cons.mp hnd).1 (he ▸ h)
        simp only [List.map_cons, List.sum_cons, if_neg hb,
          ih (List.nodup_cons.mp hnd).2 h, Nat.zero_add]

theorem sum_map_key {α β : Type} [DecidableEq β] (xs : List α) (k : α → β) (f : β → Nat) :
    (xs.map (fun x => f (k x))).sum =
      ((xs.map k).dedup.map (fun v => (xs.map k).count v * f v)).sum := by
  induction xs with
  | nil => simp
  | cons x xs ih =>
      by_cases hmem : k x ∈ xs.map k
      · rw [List.map_cons, List.sum_cons, List.map_cons, List.dedup_cons_of_mem hmem]
        have hpt : ∀ v ∈ (xs.map k).dedup,
            (k x :: xs.map k).count v * f v =
              (xs.map k).count v * f v + (if v = k x then f v else 0) := by
          intro v _
          rw [List.count_cons]
          by_cases hv : v = k x
          · simp [hv, Nat.add_mul]
          · simp [hv, Ne.symm hv]
        rw [List.map_congr_left hpt, sum_map_add_distrib,
          sum_map_ite_eq _ (k x) f (List.nodup_dedup _) (List.mem_dedup.mpr hmem), ih]
        omega
      · rw [List.map_cons, List.sum_cons, List.map_cons,
          List.dedup_cons_of_not_mem hmem, List.map_cons, List.sum_cons]
        have hcnt : (k x :: xs.map k).count (k x) = 1 := by
          rw [List.count_cons, List.count_eq_zero.mpr hmem]
          simp
        have hpt : ∀ v ∈ (xs.map k).dedup,
            (k x :: xs.map k).count v * f v = (xs.map k).count v * f v := by
          intro v hv
          have hvx : v ≠ k x := by
            intro he
            exact hmem (he ▸ List.mem_dedup.mp hv)
          rw [List.count_cons]
          simp [Ne.symm hvx]
        rw [hcnt, List.map_congr_left hpt, ih]
        omega

theorem count_map_key (xs : List Row) (k : String) (v : Value) :
    (xs.map (lookupVal k)).count v = countKey xs k v := by
  rw [List.count_eq_countP, List.countP_map, countKey, ← List.countP_eq_length_filter]
  rfl

/-! # Claim theorems -/

/-- C1: for every pair of tables joined in inner mode, the result contains
exactly one output row per (left row, right row) pair whose key values are
equal — the full cross-product of matches per key, never only the first
match — so the row count equals the sum over matching key groups of
`|left group| * |right group|`. -/
theorem merge_inner_rowCount (left right : Table) (lk rk sl sr : String) :
    (merge left right lk rk MergeHow.inner sl sr).rows.length =
      innerGroupSum left right lk rk := by
  have hrows : (merge left right lk rk MergeHow.inner sl sr).rows =
      left.rows.flatMap (fun l =>
        (right.rows.filter (fun r => lookupVal rk r == lookupVal lk l)).map
          (fun r => applySuffix (collideCols left right lk rk) sl l ++
            applySuffix (collideCols left right lk rk) sr r)) := by
    simp [merge]
  rw [hrows, List.length_flatMap]
  have hmap : (left.rows.map (List.length ∘ (fun l =>
      (right.rows.filter (fun r => lookupVal rk r == lookupVal lk l)).map
        (fun r => applySuffix (collideCols left right lk rk) sl l ++
          applySuffix (collideCols left right lk rk) sr r)))) =
      left.rows.map (fun l =>
        (fun v => countKey right.rows rk v) (lookupVal lk l)) := by
    apply List.map_congr_left
    intro l _
    simp [countKey, List.length_map]
  rw [hmap, sum_map_key left.rows (fun r => lookupVal lk r)
    (fun v => countKey right.rows rk v)]
  rw [innerGroupSum, groupKeys]
  apply congrArg List.sum
  apply List.map_congr_left
  intro v _
  rw [count_map_key]

/-- C2: applying the discrete-set filter with an empty selection set to a
table with at least one row returns the original table unchanged (same
rows, same order, same values), not an empty table. -/
theorem discreteFilter_empty_identity (t : Table) (c : String)
    (h : 0 < t.rows.length) : discreteFilter t c [] = t := rfl

theorem discreteFilter_empty_identity_witness :
    0 < playsFixture.rows.length ∧
      discreteFilter playsFixture "pitcher.id" [] = playsFixture :=
  ⟨by decide, discreteFilter_empty_identity playsFixture "pitcher.id" (by decide)⟩

/-- C6: the numeric range filter retains exactly the rows whose value `v`
satisfies `lo ≤ v ≤ hi`, both bounds inclusive (a row with value exactly
`lo` or `hi` is retained), and excludes rows whose cell is missing or
non-numeric. -/
theorem numericFilter_mem_iff (t : Table) (c : String) (lo hi : Int) (r : Row) :
    r ∈ (numericFilter t c lo hi).rows ↔
      r ∈ t.rows ∧ ∃ v : Int, lookupVal c r = Value.num v ∧ lo ≤ v ∧ v ≤ hi := by
  simp only [numericFilter, List.mem_filter]
  constructor
  · rintro ⟨hmem, hpred⟩
    refine ⟨hmem, ?_⟩
    cases hval : lookupVal c r with
    | str s => rw [hval] at hpred; exact absurd hpred (by simp)
    | num v =>
        rw [hval] at hpred
        simp only [Bool.and_eq_true, decide_eq_true_eq] at hpred
        exact ⟨v, rfl, hpred.1, hpred.2⟩
    | dt v => rw [hval] at hpred; exact absurd hpred (by simp)
    | bool b => rw [hval] at hpred; exact absurd hpred (by simp)
    | missing => rw [hval] at hpred; exact absurd hpred (by simp)
  · rintro ⟨hmem, v, hval, h1, h2⟩
    refine ⟨hmem, ?_⟩
    rw [hval]
    simp [h1, h2]

/-- C8: flattening is deterministic — running the flatten step twice on
the same sequence of nested records and the same separator yields tables
with identical column names (including order) and identical cell values.
The embedding is a pure function of the records and the separator, so the
two runs agree definitionally. -/
theorem flatten_deterministic (records1 records2 : List Json) (sep1 sep2 : String)
    (h1 : records1 = records2) (h2 : sep1 = sep2) :
    (flattenRecords records1 sep1).cols = (flattenRecords records2 sep2).cols ∧
      (flattenRecords records1 sep1).rows = (flattenRecords records2 sep2).rows := by
  subst h1
  subst h2
  exact ⟨rfl, rfl⟩

theorem flatten_deterministic_witness :
    (flattenRecords [Json.obj [("pitcher",
        Json.obj [("id", Json.str "1"), ("name", Json.str "Alice")])]] "_").cols =
      (flattenRecords [Json.obj [("pitcher",
        Json.obj [("id", Json.str "1"), ("name", Json.str "Alice")])]] "_").cols ∧
    (flattenRecords [Json.obj [("pitcher",
        Json.obj [("id", Json.str "1"), ("name", Json.str "Alice")])]] "_").rows =
      (flattenRecords [Json.obj [("pitcher",
        Json.obj [("id", Json.str "1"), ("name", Json.str "Alice")])]] "_").rows :=
  flatten_deterministic _ _ _ _ rfl rfl

/-- C10: every filter branch (numeric range, date range, discrete set,
substring match) returns rows that form a sub-multiset of the input rows:
the output row list is a sublist of the input row list, so each output row
is an unmodified input row, occurs at most as often as in the input, and
the input's relative order is preserved. -/
theorem filter_branches_preserve_rows (t : Table) (c : String)
    (lo hi dateFrom dateTo : Int) (options : List Value) (pat : String) :
    (numericFilter t c lo hi).rows.Sublist t.rows ∧
      (dateFilter t c dateFrom dateTo).rows.Sublist t.rows ∧
      (discreteFilter t c options).rows.Sublist t.rows ∧
      (nameFilter t c pat).rows.Sublist t.rows := by
  refine ⟨List.filter_sublist _, List.filter_sublist _, ?_, ?_⟩
  · unfold discreteFilter
    split
    · exact List.Sublist.refl _
    · exact List.filter_sublist _
  · unfold nameFilter
    split
    · exact List.Sublist.refl _
    · exact List.filter_sublist _

theorem Heap.read_alloc_old (h : Heap) (t : Table) (i : Nat) (hlen : i < h.length) :
    Heap.read (Heap.alloc h t).1 i = Heap.read h i := by
  simp only [Heap.read, Heap.alloc, List.getD_eq_getElem?_getD]
  rw [List.getElem?_append_left hlen]

/-- C3 counterexample: the v6 step `plays_df["pitcher_display"] = ...`
overwrites the fetched plays table object in place — after the step, the
heap object the plays reference points to differs from the fetched table,
refuting "no entity is ever mutated in place". -/
theorem v6_pitcher_display_mutates_in_place :
    Heap.read (v6PitcherDisplayStep [playsFixture] 0) 0 ≠
      Heap.read [playsFixture] 0 := by
  decide

/-- C3 (amended): filter and join operations do produce a fresh derived
table and leave every existing heap object (fetched, flattened, or cached
table) unchanged; the in-place column assignments (v2's datetime
conversion, v6/v8/v9's pitcher-display column) are the exception, mutating
the fetched table object itself. -/
theorem filter_join_steps_no_mutation (h : Heap) (src lref rref : Nat)
    (c : String) (lo hi : Int) (lk rk sl sr : String) (how : MergeHow)
    (i : Nat) (hlen : i < h.length) :
    Heap.read (runFilterStep h src c lo hi).1 i = Heap.read h i ∧
      Heap.read (runJoinStep h lref rref lk rk how sl sr).1 i = Heap.read h i :=
  ⟨Heap.read_alloc_old h _ i hlen, Heap.read_alloc_old h _ i hlen⟩

theorem filter_join_steps_no_mutation_witness :
    0 < ([playsFixture, ballsWithPlayId] : Heap).length ∧
      (Heap.read (runFilterStep [playsFixture, ballsWithPlayId] 1 "speed" 0 100).1 0 =
          Heap.read [playsFixture, ballsWithPlayId] 0 ∧
        Heap.read (runJoinStep [playsFixture, ballsWithPlayId] 0 1 "playId" "playId"
            MergeHow.inner "_play" "_ball").1 0 =
          Heap.read [playsFixture, ballsWithPlayId] 0) :=
  ⟨by decide,
    filter_join_steps_no_mutation [playsFixture, ballsWithPlayId] 1 0 1 "speed" 0 100
      "playId" "playId" "_play" "_ball" MergeHow.inner 0 (by decide)⟩

/-- C4 counterexample: joining on a key column absent from one table is
rejected as a `SchemaError` by pandas, but the scripts leave it unhandled:
the v9 merge (no presence check) propagates the error as an unhandled
fault, and even v5's guard — which checks only the balls side — lets a
plays-side missing key reach the merge and fault.  This refutes "never an
unhandled fault". -/
theorem v9_merge_missing_key_unhandled :
    V9.mergedBallsPlays ballsNoPlayId playsWithPlayID =
        Except.error (MergeErr.schemaErr "playId") ∧
      V5.mergeStep playsNoPlayId ballsWithPlayId =
        V5Outcome.fault (MergeErr.schemaErr "playId") :=
  ⟨rfl, rfl⟩

/-- C4 (amended): joining on a key column absent from either table yields
a `SchemaError` raised before any row comparison (the error is independent
of both tables' rows), and v5's guard pre-rejects a balls-side missing key
with a warning instead of merging; but the merge error is otherwise left
unhandled by the scripts (see the counterexample). -/
theorem merge_missing_key_schemaError (left right play_df ball_df : Table)
    (lk rk sl sr : String) (how : MergeHow)
    (hmiss : lk ∉ left.cols ∨ rk ∉ right.cols)
    (hguard : "playId" ∉ ball_df.cols) :
    (∃ key : String,
        mergeChecked left right lk rk how sl sr =
            Except.error (MergeErr.schemaErr key) ∧
          ∀ rows1 rows2 : List Row,
            mergeChecked { left with rows := rows1 } { right with rows := rows2 }
                lk rk how sl sr =
              Except.error (MergeErr.schemaErr key)) ∧
      V5.mergeStep play_df ball_df =
        V5Outcome.warning "Play or Ball data is empty or not mergeable." := by
  constructor
  · rcases hmiss with hl | hr
    · exact ⟨lk, by simp [mergeChecked, hl], fun r1 r2 => by simp [mergeChecked, hl]⟩
    · by_cases hl : lk ∈ left.cols
      · exact ⟨rk, by simp [mergeChecked, hl, hr],
          fun r1 r2 => by simp [mergeChecked, hl, hr]⟩
      · exact ⟨lk, by simp [mergeChecked, hl], fun r1 r2 => by simp [mergeChecked, hl]⟩
  · unfold V5.mergeStep
    have hc : ball_df.cols.contains "playId" = false := by
      simpa using hguard
    rw [hc]
    simp

theorem merge_missing_key_schemaError_witness :
    ("playId" ∉ playsNoPlayId.cols ∨ "playId" ∉ ballsWithPlayId.cols) ∧
      "playId" ∉ ballsNoPlayId.cols ∧
      ((∃ key : String,
          mergeChecked playsNoPlayId ballsWithPlayId "playId" "playId"
              MergeHow.left "_x" "_y" =
            Except.error (MergeErr.schemaErr key) ∧
          ∀ rows1 rows2 : List Row,
            mergeChecked { playsNoPlayId with rows := rows1 }
                { ballsWithPlayId with rows := rows2 } "playId" "playId"
                MergeHow.left "_x" "_y" =
              Except.error (MergeErr.schemaErr key)) ∧
        V5.mergeStep playsFixture ballsNoPlayId =
          V5Outcome.warning "Play or Ball data is empty or not mergeable.") :=
  ⟨Or.inl (by decide), by decide,
    merge_missing_key_schemaError playsNoPlayId ballsWithPlayId playsFixture
      ballsNoPlayId "playId" "playId" "_x" "_y" MergeHow.left
      (Or.inl (by decide)) (by decide)⟩

/-- C5 counterexample: v4's `fetch_plays` converts a failing fetch
(status 500) into an empty table with NO message at all — refuting the
claim that every failing fetch of sessions/plays/balls surfaces a
user-visible message carrying the status code. -/
theorem v4_fetch_plays_silent_failure :
    (V4.fetch_plays "https://api" "s1"
        { status := 500, body := Json.null, text := "server error" }).messages = [] ∧
      (V4.fetch_plays "https://api" "s1"
        { status := 500, body := Json.null, text := "server error" }).table =
        Table.empty ∧
      (500 : Nat) ≠ 200 :=
  ⟨rfl, rfl, by decide⟩

/-- C5 (amended): every non-success fetch yields the empty table
downstream, issues exactly one request (no automatic retry), and raises no
exception; the cited v9 and v3 fetchers additionally emit a user-visible
message carrying the status code (v4's fetchers emit none); and a failing
balls fetch leaves the plays fetch result unaffected. -/
theorem fetch_failure_empty_message_no_retry (base_url session_id : String)
    (playResp ballResp : HttpResponse) (hfail : ballResp.status ≠ 200) :
    (V9.fetchSessionTables base_url session_id playResp ballResp).2.table =
        Table.empty ∧
      (V9.fetchSessionTables base_url session_id playResp ballResp).2.messages =
        [V9.ballErrMsg ballResp] ∧
      (toString ballResp.status).data <:+: (V9.ballErrMsg ballResp).data ∧
      (V9.fetchSessionTables base_url session_id playResp ballResp).2.requests.length
        = 1 ∧
      (V9.fetchSessionTables base_url session_id playResp ballResp).1.requests.length
        = 1 ∧
      (∀ otherBallResp : HttpResponse,
        (V9.fetchSessionTables base_url session_id playResp ballResp).1 =
          (V9.fetchSessionTables base_url session_id playResp otherBallResp).1) ∧
      (V3.fetch_play_data base_url session_id ballResp).table = Table.empty ∧
      (V3.fetch_play_data base_url session_id ballResp).messages =
        ["Play data fetch error: " ++ toString ballResp.status ++ " - " ++
          ballResp.text] := by
  have hbeq : (ballResp.status == 200) = false := by simp [hfail]
  refine ⟨?_, ?_, ?_, ?_, ?_, ?_, ?_, ?_⟩
  · simp [V9.fetchSessionTables, V9.fetch_ball_data, hbeq]
  · simp [V9.fetchSessionTables, V9.fetch_ball_data, hbeq]
  · refine ⟨"Ball data fetch error: ".data, (" - " ++ ballResp.text).data, ?_⟩
    simp [V9.ballErrMsg, String.data_append, List.append_assoc]
  · simp [V9.fetchSessionTables, V9.fetch_ball_data, hbeq]
  · cases hps : playResp.status == 200 <;>
      simp [V9.fetchSessionTables, V9.fetch_play_data, hps]
  · intro otherBallResp
    rfl
  · simp [V3.fetch_play_data, hbeq]
  · simp [V3.fetch_play_data, hbeq]

theorem fetch_failure_empty_message_no_retry_witness :
    (404 : Nat) ≠ 200 ∧
      ((V9.fetchSessionTables "https://api" "s1"
          { status := 200, body := Json.arr [], text := "ok" }
          { status := 404, body := Json.null, text := "not found" }).2.table =
        Table.empty ∧
      (V9.fetchSessionTables "https://api" "s1"
          { status := 200, body := Json.arr [], text := "ok" }
          { status := 404, body := Json.null, text := "not found" }).2.messages =
        [V9.ballErrMsg { status := 404, body := Json.null, text := "not found" }] ∧
      (toString (404 : Nat)).data <:+:
        (V9.ballErrMsg { status := 404, body := Json.null, text := "not found" }).data ∧
      (V9.fetchSessionTables "https://api" "s1"
          { status := 200, body := Json.arr [], text := "ok" }
          { status := 404, body := Json.null, text := "not found" }).2.requests.length
        = 1 ∧
      (V9.fetchSessionTables "https://api" "s1"
          { status := 200, body := Json.arr [], text := "ok" }
          { status := 404, body := Json.null, text := "not found" }).1.requests.length
        = 1 ∧
      (∀ otherBallResp : HttpResponse,
        (V9.fetchSessionTables "https://api" "s1"
            { status := 200, body := Json.arr [], text := "ok" }
            { status := 404, body := Json.null, text := "not found" }).1 =
          (V9.fetchSessionTables "https://api" "s1"
            { status := 200, body := Json.arr [], text := "ok" }
            otherBallResp).1) ∧
      (V3.fetch_play_data "https://api" "s1"
          { status := 404, body := Json.null, text := "not found" }).table =
        Table.empty ∧
      (V3.fetch_play_data "https://api" "s1"
          { status := 404, body := Json.null, text := "not found" }).messages =
        ["Play data fetch error: " ++ toString (404 : Nat) ++ " - " ++ "not found"]) :=
  ⟨by decide,
    fetch_failure_empty_message_no_retry "https://api" "s1"
      { status := 200, body := Json.arr [], text := "ok" }
      { status := 404, body := Json.null, text := "not found" } (by decide)⟩

theorem mem_collideCols (l r : Table) (lk rk x : String)
    (hx : x ∈ collideCols l r lk rk) : x ∈ r.cols := by
  unfold collideCols at hx
  have h1 := (List.mem_filter.mp hx).1
  have h2 := (List.mem_filter.mp h1).2
  simpa using h2

/-- C7: filtering the balls table to `kind == "Pitch"` before the
ball/play join (v8/v9, and the same filter in v6) yields a joined output
in which every row carries kind "Pitch" — no output row derives from a
"Hit" ball row.  (Hypothesis: the plays table has no `kind` column, as
holds for the source data, so the balls-side `kind` column is not
suffix-renamed.) -/
theorem v9_pitch_filter_excludes_hits (ball_df play_df m : Table)
    (hkc : "kind" ∉ play_df.cols)
    (hm : V9.mergedBallsPlays ball_df play_df = Except.ok m) :
    ∀ r ∈ m.rows, lookupVal "kind" r = Value.str "Pitch" := by
  intro r hr
  unfold V9.mergedBallsPlays mergeChecked at hm
  split at hm
  · exact absurd hm (by simp)
  · split at hm
    · exact absurd hm (by simp)
    · have hmm : merge (kindPitchFilter ball_df) play_df "playId" "playID"
          MergeHow.left "_x" "_y" = m := Except.ok.inj hm
      rw [← hmm] at hr
      simp only [merge] at hr
      obtain ⟨l, hl, hrl⟩ := List.mem_flatMap.mp hr
      -- the ball-side row satisfies the Pitch predicate
      have hlk : lookupVal "kind" l = Value.str "Pitch" := by
        have := (List.mem_filter.mp hl).2
        simpa using this
      have hlf : hasField "kind" l = true := by
        cases hf : hasField "kind" l
        · rw [hasField_false_of_lookupVal_missing _ _ hf] at hlk
          cases hlk
        · rfl
      -- the kind column survives suffixing on the ball side
      have hknc : "kind" ∉ collideCols (kindPitchFilter ball_df) play_df
          "playId" "playID" :=
        fun hx => hkc (mem_collideCols _ _ _ _ _ hx)
      have hsuf : ∀ a : String, a ++ "_x" ≠ "kind" := fun a =>
        strAppend_ne_of_getLast a "_x" "kind" 'x' 'd' (by decide) (by decide)
          (by decide)
      have hpres := applySuffix_preserves
        (collideCols (kindPitchFilter ball_df) play_df "playId" "playID") "_x"
        "kind" l hknc hsuf
      -- both merge arms put the suffixed ball row first
      rcases (by
        by_cases hc : (MergeHow.left == MergeHow.left &&
            ((play_df.rows.filter
              (fun p => lookupVal "playID" p == lookupVal "playId" l)).isEmpty)) = true
        · rw [if_pos hc] at hrl
          exact Or.inl hrl
        · rw [if_neg hc] at hrl
          exact Or.inr hrl :
        r ∈ [applySuffix (collideCols (kindPitchFilter ball_df) play_df "playId"
              "playID") "_x" l ++
            missingPad (suffixCols (collideCols (kindPitchFilter ball_df) play_df
              "playId" "playID") "_y" play_df.cols)] ∨
          r ∈ (play_df.rows.filter
              (fun p => lookupVal "playID" p == lookupVal "playId" l)).map
            (fun p => applySuffix (collideCols (kindPitchFilter ball_df) play_df
                "playId" "playID") "_x" l ++
              applySuffix (collideCols (kindPitchFilter ball_df) play_df "playId"
                "playID") "_y" p)) with hpad | hmap
      · have hreq : r = applySuffix (collideCols (kindPitchFilter ball_df) play_df
            "playId" "playID") "_x" l ++
            missingPad (suffixCols (collideCols (kindPitchFilter ball_df) play_df
              "playId" "playID") "_y" play_df.cols) := by
          simpa using hpad
        rw [hreq, lookupVal_append, hpres.1, if_pos hlf, hpres.2]
        exact hlk
      · obtain ⟨p, _, hpr⟩ := List.mem_map.mp hmap
        rw [← hpr, lookupVal_append, hpres.1, if_pos hlf, hpres.2]
        exact hlk

theorem v9_pitch_filter_excludes_hits_witness :
    "kind" ∉ playsWithPlayID.cols ∧
      V9.mergedBallsPlays ballsWithPlayId playsWithPlayID =
        Except.ok (merge (kindPitchFilter ballsWithPlayId) playsWithPlayID
          "playId" "playID" MergeHow.left "_x" "_y") ∧
      ∀ r ∈ (merge (kindPitchFilter ballsWithPlayId) playsWithPlayID
          "playId" "playID" MergeHow.left "_x" "_y").rows,
        lookupVal "kind" r = Value.str "Pitch" :=
  ⟨by decide, rfl,
    v9_pitch_filter_excludes_hits ballsWithPlayId playsWithPlayID _
      (by decide) rfl⟩

theorem mem_collideCols_left (l r : Table) (lk rk x : String)
    (hx : x ∈ collideCols l r lk rk) : x ∈ l.cols :=
  (List.mem_filter.mp (List.mem_filter.mp ((by
    unfold collideCols at hx; exact hx) :
      x ∈ (l.cols.filter (fun c => r.cols.contains c)).filter
        (fun c => !(lk == rk && c == lk)))).1).1

theorem flatMap_congr_mem {α β : Type} (l : List α) (f g : α → List β)
    (h : ∀ a ∈ l, f a = g a) : l.flatMap f = l.flatMap g := by
  induction l with
  | nil => rfl
  | cons a l ih =>
      rw [List.flatMap_cons, List.flatMap_cons, h a (List.mem_cons_self a l),
        ih (fun b hb => h b (List.mem_cons_of_mem a hb))]

theorem Table.ext_of (t1 t2 : Table) (h1 : t1.cols = t2.cols)
    (h2 : t1.rows = t2.rows) : t1 = t2 := by
  cases t1
  cases t2
  cases h1
  cases h2
  rfl

theorem mergeHow_inner_beq_left : (MergeHow.inner == MergeHow.left) = false := rfl

theorem mergeHow_left_beq_left : (MergeHow.left == MergeHow.left) = true := rfl

theorem dropna_merge_left_eq_inner (L R : Table)
    (hp : ∀ p ∈ R.rows, lookupVal "pitcher_id" p ≠ Value.missing)
    (hLc : "pitcher_id" ∉ L.cols)
    (hLr : ∀ b ∈ L.rows, hasField "pitcher_id" b = false)
    (hRc : "pitcher_id" ∈ R.cols) :
    dropna (merge L R "playId" "playID" MergeHow.left "_x" "_y") "pitcher_id" =
      Except.ok (merge L R "playId" "playID" MergeHow.inner "_x" "_y") := by
  have hcol : "pitcher_id" ∉ collideCols L R "playId" "playID" :=
    fun hx => hLc (mem_collideCols_left _ _ _ _ _ hx)
  have hsufx : ∀ a : String, a ++ "_x" ≠ "pitcher_id" := fun a =>
    strAppend_ne_of_getLast a "_x" "pitcher_id" 'x' 'd' (by decide) (by decide)
      (by decide)
  have hsufy : ∀ a : String, a ++ "_y" ≠ "pitcher_id" := fun a =>
    strAppend_ne_of_getLast a "_y" "pitcher_id" 'y' 'd' (by decide) (by decide)
      (by decide)
  have hcf : (collideCols L R "playId" "playID").contains "pitcher_id" = false := by
    cases hc : (collideCols L R "playId" "playID").contains "pitcher_id"
    · rfl
    · exact absurd
        ((by simpa using hc) : "pitcher_id" ∈ collideCols L R "playId" "playID")
        hcol
  have hpidmem : "pitcher_id" ∈ mergeOutCols L R "playId" "playID" "_x" "_y" := by
    unfold mergeOutCols
    have hkeys : (("playId" : String) == "playID") = false := by decide
    rw [hkeys]
    simp only [Bool.false_eq_true, if_false]
    apply List.mem_append_right
    unfold suffixCols
    refine List.mem_map.mpr ⟨"pitcher_id", hRc, ?_⟩
    have hnotc : ¬("pitcher_id" ∈ collideCols L R "playId" "playID") := hcol
    simp [hnotc]
  have hcontains : (merge L R "playId" "playID" MergeHow.left "_x"
      "_y").cols.contains "pitcher_id" = true := by
    have hmem : "pitcher_id" ∈
        (merge L R "playId" "playID" MergeHow.left "_x" "_y").cols := hpidmem
    simpa using hmem
  unfold dropna
  rw [if_pos hcontains]
  apply congrArg Except.ok
  apply Table.ext_of
  · rfl
  · simp only [merge]
    rw [List.filter_flatMap]
    apply flatMap_congr_mem
    intro l hl
    have hlf : hasField "pitcher_id"
        (applySuffix (collideCols L R "playId" "playID") "_x" l) = false := by
      rw [(applySuffix_preserves _ _ _ l hcol hsufx).1]
      exact hLr l hl
    by_cases hms : (R.rows.filter
        (fun p => lookupVal "playID" p == lookupVal "playId" l)).isEmpty = true
    · have hnil : R.rows.filter
          (fun p => lookupVal "playID" p == lookupVal "playId" l) = [] := by
        simpa using hms
      rw [mergeHow_left_beq_left, mergeHow_inner_beq_left, hms]
      simp only [Bool.true_and, Bool.false_and, if_true, if_false, hnil,
        List.map_nil]
      rw [List.filter_cons, List.filter_nil]
      have hmiss : lookupVal "pitcher_id"
          (applySuffix (collideCols L R "playId" "playID") "_x" l ++
            missingPad (suffixCols (collideCols L R "playId" "playID") "_y"
              R.cols)) = Value.missing := by
        rw [lookupVal_append, hlf]
        simp only [Bool.false_eq_true, if_false]
        exact lookupVal_missingPad _ _
      rw [hmiss]
      simp
    · rw [mergeHow_left_beq_left, mergeHow_inner_beq_left]
      simp only [Bool.true_and, Bool.false_and, if_false, hms]
      rw [List.filter_eq_self.mpr]
      intro row hrow
      obtain ⟨p, hp2, hpr⟩ := List.mem_map.mp hrow
      have hpR : p ∈ R.rows := (List.mem_filter.mp hp2).1
      have hval : lookupVal "pitcher_id" row = lookupVal "pitcher_id" p := by
        rw [← hpr, lookupVal_append, hlf]
        simp only [Bool.false_eq_true, if_false]
        exact (applySuffix_preserves _ _ _ p hcol hsufy).2
      have := hp p hpR
      rw [← hval] at this
      simpa using this

theorem dropna_ok_rows (t m : Table) (c : String)
    (hm : dropna t c = Except.ok m) :
    ∀ r ∈ m.rows, lookupVal c r ≠ Value.missing := by
  unfold dropna at hm
  split at hm
  · have hmm := Except.ok.inj hm
    intro r hr
    rw [← hmm] at hr
    have := (List.mem_filter.mp hr).2
    simpa using this
  · exact absurd hm (by simp)

/-- C9 counterexample: a ball row whose matching play row has a
`pitcher_id` column holding `NaN` IS in the inner join (one row) but is
dropped by the left-merge + dropna composite (zero rows) — the dropna
removes more than just unmatched left rows, so the composite does not
behave as an inner join on this input. -/
theorem v9_dropna_stricter_than_inner :
    exceptOk (V9.mergedDropna ballsWithPlayId playsNullPitcherId) = true ∧
      exceptOk (V9.innerBallsPlays ballsWithPlayId playsNullPitcherId) = true ∧
      (exceptRows (V9.mergedDropna ballsWithPlayId playsNullPitcherId)).length
        = 0 ∧
      (exceptRows (V9.innerBallsPlays ballsWithPlayId playsNullPitcherId)).length
        = 1 := by
  decide

/-- C9 (amended): every row of the v8/v9 left-merge + dropna composite has
a non-missing `pitcher_id`, and when the plays table carries a
`pitcher_id` column with a non-missing value in every row (and the balls
side carries none, as in the source data) the composite equals the inner
join on the same keys: unmatched left rows are removed.  (When a matched
play row holds `NaN` in `pitcher_id`, the composite is stricter than the
inner join — see the counterexample; when the `pitcher_id` column is
absent altogether, pandas' dropna raises an unhandled `KeyError`.) -/
theorem v9_dropna_behaves_as_inner (ball_df play_df : Table)
    (hp : ∀ p ∈ play_df.rows, lookupVal "pitcher_id" p ≠ Value.missing)
    (hbc : "pitcher_id" ∉ ball_df.cols)
    (hbr : ∀ b ∈ ball_df.rows, hasField "pitcher_id" b = false)
    (hpc : "pitcher_id" ∈ play_df.cols) :
    (∀ m : Table, V9.mergedDropna ball_df play_df = Except.ok m →
        ∀ r ∈ m.rows, lookupVal "pitcher_id" r ≠ Value.missing) ∧
      V9.mergedDropna ball_df play_df = V9.innerBallsPlays ball_df play_df := by
  have hLc : "pitcher_id" ∉ (kindPitchFilter ball_df).cols := hbc
  have hLr : ∀ b ∈ (kindPitchFilter ball_df).rows,
      hasField "pitcher_id" b = false := by
    intro b hb
    exact hbr b (List.mem_filter.mp hb).1
  constructor
  · intro m hm r hr
    unfold V9.mergedDropna at hm
    cases hmb : V9.mergedBallsPlays ball_df play_df with
    | error e =>
        rw [hmb] at hm
        exact absurd hm (by simp)
    | ok m0 =>
        rw [hmb] at hm
        exact dropna_ok_rows m0 m "pitcher_id" hm r hr
  · unfold V9.mergedDropna V9.mergedBallsPlays V9.innerBallsPlays mergeChecked
    by_cases h1 : (kindPitchFilter ball_df).cols.contains "playId" = true
    · by_cases h2 : play_df.cols.contains "playID" = true
      · simp only [h1, h2, Bool.not_true, Bool.false_eq_true, if_false]
        exact dropna_merge_left_eq_inner (kindPitchFilter ball_df) play_df
          hp hLc hLr hpc
      · have h2m : "playID" ∉ play_df.cols := by
          intro hmem
          exact h2 (by simpa using hmem)
        simp [h2m]
        by_cases hP : "playId" ∈ (kindPitchFilter ball_df).cols
        · simp [hP]
        · simp [hP]
    · have h1m : "playId" ∉ (kindPitchFilter ball_df).cols := by
        intro hmem
        exact h1 (by simpa using hmem)
      simp [h1m]

theorem v9_dropna_behaves_as_inner_witness :
    (∀ p ∈ playsWithPitcherId.rows,
        lookupVal "pitcher_id" p ≠ Value.missing) ∧
      "pitcher_id" ∉ ballsWithPlayId.cols ∧
      (∀ b ∈ ballsWithPlayId.rows, hasField "pitcher_id" b = false) ∧
      "pitcher_id" ∈ playsWithPitcherId.cols ∧
      ((∀ m : Table,
          V9.mergedDropna ballsWithPlayId playsWithPitcherId = Except.ok m →
            ∀ r ∈ m.rows, lookupVal "pitcher_id" r ≠ Value.missing) ∧
        V9.mergedDropna ballsWithPlayId playsWithPitcherId =
          V9.innerBallsPlays ballsWithPlayId playsWithPitcherId) :=
  ⟨by decide, by decide, by decide, by decide,
    v9_dropna_behaves_as_inner ballsWithPlayId playsWithPitcherId
      (by decide) (by decide) (by decide) (by decide)⟩
